import Mathlib

/-!
Verification development for the go-weather-processor repository.

The program ingests weather readings and maintains hourly, daily, weekly and
monthly summary tables.  This file gives a shallow embedding of the core
logic of `main.go`:

* calendar arithmetic following the semantics of the Go `time` package
  (civil dates, weekday, ISO week, the window computations in
  `updateDailyStatistics`, `updateWeeklyStatistics`, `updateMonthlyStatistics`);
* the rounding of statistics (`math.Round(x*10)/10`, half away from zero)
  over exact rationals;
* the four aggregation operations and the ingestion step
  (`processWeatherData`), modelling the weather table as a list of readings
  and each summary table as a map from its natural key to an optional row.

Calendar instants are modelled as day numbers (days since 1970-01-01),
which is the internal representation of Go `time.Time` up to the time of
day; the conversions to and from civil year/month/day use the standard
civil-calendar algorithms, matching Go date normalization.
-/

namespace WeatherProcessor

/-! ## Calendar arithmetic (Go `time` package semantics) -/

/-- Leap year test, as in Go `time.isLeap`:
`year%4 == 0 && (year%100 != 0 || year%400 == 0)`. -/
def isLeap (y : Int) : Bool :=
  y % 4 == 0 && (y % 100 != 0 || y % 400 == 0)

/-- Number of days in a month, as in Go `time.daysIn`. -/
def daysInMonth (y m : Int) : Int :=
  if m = 2 then (if isLeap y then 29 else 28)
  else if m = 4 ∨ m = 6 ∨ m = 9 ∨ m = 11 then 30
  else 31

/-- Day number (days since 1970-01-01) of the civil date `y-m-d`.
Standard civil-from-date algorithm; agrees with Go `time.Date` for valid
dates.  `/` on `Int` is floor division here since all divisors are
positive. -/
def daysFromCivil (y m d : Int) : Int :=
  let y2 := y - (if m ≤ 2 then 1 else 0)
  let era := y2 / 400
  let yoe := y2 - era * 400
  let mp := m + (if 2 < m then -3 else 9)
  let doy := (153 * mp + 2) / 5 + d - 1
  let doe := yoe * 365 + yoe / 4 - yoe / 100 + doy
  era * 146097 + doe - 719468

/-- Civil date `(year, month, day)` of a day number; inverse of
`daysFromCivil`, matching Go `time.Time.Date`. -/
def civilFromDays (z : Int) : Int × Int × Int :=
  let z2 := z + 719468
  let era := z2 / 146097
  let doe := z2 - era * 146097
  let yoe := (doe - doe / 1460 + doe / 36524 - doe / 146096) / 365
  let y := yoe + era * 400
  let doy := doe - (365 * yoe + yoe / 4 - yoe / 100)
  let mp := (5 * doy + 2) / 153
  let d := doy - (153 * mp + 2) / 5 + 1
  let m := mp + (if mp < 10 then 3 else -9)
  (y + (if m ≤ 2 then 1 else 0), m, d)

/-- Weekday of a day number, Go convention: Sunday = 0, …, Saturday = 6.
1970-01-01 was a Thursday (= 4). -/
def weekday (z : Int) : Int := (z + 4) % 7

/-- ISO 8601 year and week of a day number, following Go
`time.Time.ISOWeek`: move to the Thursday of the same Monday-based week,
then the ISO year is that Thursday's year and the week number is its
zero-based day-of-year divided by 7, plus one. -/
def isoWeek (z : Int) : Int × Int :=
  let wd := weekday z
  let delta := if wd = 0 then -3 else 4 - wd
  let th := z + delta
  let y := (civilFromDays th).1
  let yday := th - daysFromCivil y 1 1
  (y, yday / 7 + 1)

/-- The week window computed by `updateWeeklyStatistics`:
`lastMonday := now.AddDate(0, 0, -int(now.Weekday())-6)`, overridden to
`now.AddDate(0, 0, -13)` when `now` falls on a Sunday;
`lastSunday := lastMonday.AddDate(0, 0, 6)`; the natural key is
`lastMonday.ISOWeek()`. -/
structure WeekWindow where
  year : Int
  week : Int
  weekStart : Int
  weekEnd : Int
deriving DecidableEq

/-- Window Calculator for the weekly granularity, from
`updateWeeklyStatistics` in `main.go` (`today` is the day number of
`time.Now()`; `AddDate(0, 0, k)` on a day number is `+ k`). -/
def weeklyWindow (today : Int) : WeekWindow :=
  let wd := weekday today
  let lastMonday := if wd = 0 then today - 13 else today - wd - 6
  let lastSunday := lastMonday + 6
  let yw := isoWeek lastMonday
  ⟨yw.1, yw.2, lastMonday, lastSunday⟩

/-- Month window record produced by `updateMonthlyStatistics`:
the `(year, month)` natural key plus the day numbers of the window's
first and last day. -/
structure MonthWindow where
  year : Int
  month : Int
  firstDay : Int
  lastDay : Int
deriving DecidableEq

/-- Go `now.AddDate(0, -1, 0)` on a civil date `(y, m, d)` with
`1 ≤ d ≤ 31`: the month is decremented (with year borrow) and the day is
then normalized exactly as `time.Date` does — a day beyond the end of the
shorter target month rolls forward into the following month (which is the
original month again).  The roll-forward never exceeds one month because
the day excess is at most `31 - 28 = 3`. -/
def lastMonthOf (y m d : Int) : Int × Int × Int :=
  let y1 := if m = 1 then y - 1 else y
  let m1 := if m = 1 then 12 else m - 1
  if d ≤ daysInMonth y1 m1 then (y1, m1, d) else (y, m, d - daysInMonth y1 m1)

/-- Window Calculator for the monthly granularity, from
`updateMonthlyStatistics` in `main.go`: `lastMonth := now.AddDate(0,-1,0)`;
`year, month := lastMonth.Year(), lastMonth.Month()`;
`firstDay := time.Date(year, month, 1, …)`;
`lastDay := firstDay.AddDate(0, 1, -1)` (one day before the first day of
the following month).  The reference instant is the civil date
`(ty, tm, td)` of `time.Now()`. -/
def monthlyWindow (ty tm td : Int) : MonthWindow :=
  let lm := lastMonthOf ty tm td
  let year := lm.1
  let month := lm.2.1
  let firstDay := daysFromCivil year month 1
  let lastDay :=
    (if month = 12 then daysFromCivil (year + 1) 1 1
     else daysFromCivil year (month + 1) 1) - 1
  ⟨year, month, firstDay, lastDay⟩

/-! ## Readings, rounding and SQL aggregates -/

/-- One row of the `weather` table.  `day` is the day number of
`DATE(measured_at)` and `hour` is `HOUR(measured_at)`; the three metrics
are the exact decimal values stored in the `DECIMAL` columns. -/
structure Reading where
  day : Int
  hour : Int
  temperature : ℚ
  pressure : ℚ
  humidity : ℚ
deriving DecidableEq

/-- Go `math.Round`: round to the nearest integer, halves away from
zero. -/
def roundHalf (q : ℚ) : Int :=
  if 0 ≤ q then ⌊q + 1/2⌋ else -⌊-q + 1/2⌋

/-- The program's rounding of every stored statistic:
`math.Round(x*10) / 10`, one decimal place, half away from zero. -/
def round1 (q : ℚ) : ℚ := (roundHalf (q * 10) : ℚ) / 10

/-- SQL `AVG` over the selected column values. -/
def avgOf (l : List ℚ) : ℚ := l.sum / l.length

/-- SQL `MIN` over the selected column values (only queried when the
sample count is positive; the `[]` case is never used). -/
def minOf (l : List ℚ) : ℚ :=
  match l with
  | [] => 0
  | x :: xs => xs.foldl min x

/-- SQL `MAX` over the selected column values (only queried when the
sample count is positive; the `[]` case is never used). -/
def maxOf (l : List ℚ) : ℚ :=
  match l with
  | [] => 0
  | x :: xs => xs.foldl max x

/-- Temperature column of a selection. -/
def temps (l : List Reading) : List ℚ := l.map Reading.temperature

/-- Pressure column of a selection. -/
def pressures (l : List Reading) : List ℚ := l.map Reading.pressure

/-- Humidity column of a selection. -/
def humidities (l : List Reading) : List ℚ := l.map Reading.humidity

/-- `WHERE DATE(measured_at) = ? AND HOUR(measured_at) = ?` (hourly
query). -/
def inHour (date hour : Int) (r : Reading) : Bool :=
  r.day == date && r.hour == hour

/-- `WHERE DATE(measured_at) = ?` (daily query). -/
def onDay (date : Int) (r : Reading) : Bool := r.day == date

/-- `WHERE DATE(measured_at) >= ? AND DATE(measured_at) <= ?` (weekly and
monthly queries). -/
def inRange (lo hi : Int) (r : Reading) : Bool :=
  decide (lo ≤ r.day) && decide (r.day ≤ hi)

/-! ## Summary tables

Each summary table is modelled as a map from its natural key to an
optional row; `updatedAt` models the `updated_at` column refreshed with
`CURRENT_TIMESTAMP` on every write.  The aggregate queries are modelled
directly by the list aggregates above.

Zero-sample windows: the queries in `main.go` (the file the README
builds) have no `HAVING` clause, so on an empty window the SELECT
returns one row whose `AVG`/`MIN`/`MAX` aggregates are SQL NULL; `Scan`
into plain `float64` variables fails on NULL, and each function returns
its wrapped query error before ever reaching its `samplesCount == 0`
guard, which is unreachable.  The model therefore returns that error on
the empty window, with the table untouched (the error precedes any
write).  The `src/unnamed/part_001` variant instead adds
`HAVING samples > 0` to each query and treats the resulting
`sql.ErrNoRows` as a successful skip. -/

/-- One row of `weather_hourly` (columns of the upsert in
`updateHourlyAverages`; this table has no `min`/`max` columns). -/
structure HourlyRec where
  date : Int
  hour : Int
  avgTemperature : ℚ
  avgPressure : ℚ
  avgHumidity : ℚ
  samplesCount : Nat
  updatedAt : Int
deriving DecidableEq

/-- One row of `weather_daily`.  `seaTemperature` models the
`sea_temperature` column, which is absent from the upsert's column list
and from its `ON DUPLICATE KEY UPDATE` clause. -/
structure DailyRec where
  date : Int
  avgTemperature : ℚ
  minTemperature : ℚ
  maxTemperature : ℚ
  avgPressure : ℚ
  minPressure : ℚ
  maxPressure : ℚ
  avgHumidity : ℚ
  minHumidity : ℚ
  maxHumidity : ℚ
  samplesCount : Nat
  seaTemperature : Option ℚ
  updatedAt : Int
deriving DecidableEq

/-- One row of `weather_weekly`. -/
structure WeeklyRec where
  year : Int
  week : Int
  weekStart : Int
  weekEnd : Int
  avgTemperature : ℚ
  minTemperature : ℚ
  maxTemperature : ℚ
  avgPressure : ℚ
  minPressure : ℚ
  maxPressure : ℚ
  avgHumidity : ℚ
  minHumidity : ℚ
  maxHumidity : ℚ
  samplesCount : Nat
  updatedAt : Int
deriving DecidableEq

/-- One row of `weather_monthly`. -/
structure MonthlyRec where
  year : Int
  month : Int
  avgTemperature : ℚ
  minTemperature : ℚ
  maxTemperature : ℚ
  avgPressure : ℚ
  minPressure : ℚ
  maxPressure : ℚ
  avgHumidity : ℚ
  minHumidity : ℚ
  maxHumidity : ℚ
  samplesCount : Nat
  updatedAt : Int
deriving DecidableEq

abbrev HourlyStore := Int × Int → Option HourlyRec
abbrev DailyStore := Int → Option DailyRec
abbrev WeeklyStore := Int × Int → Option WeeklyRec
abbrev MonthlyStore := Int × Int → Option MonthlyRec

/-! ## The Aggregator (one operation per granularity) -/

/-- `updateHourlyAverages(db, currentTime)` from `main.go`.  `date` and
`hour` are the civil date (as a day number) and hour of `currentTime`;
`now` is the wall-clock instant supplying `CURRENT_TIMESTAMP`.  The
function averages the three metrics over the readings of that date and
hour; with zero matching readings the scan of the NULL averages fails
and the wrapped query error is returned with nothing written (the
`samplesCount == 0` guard below it is unreachable); otherwise it rounds
to one decimal place and upserts into `weather_hourly` keyed by
`(date, hour)`. -/
def updateHourlyAverages (db : List Reading) (date hour : Int) (now : Int)
    (s : HourlyStore) : HourlyStore × Except String Unit :=
  let sel := db.filter (inHour date hour)
  if sel.length = 0 then (s, .error "failed to calculate averages")
  else
    let r : HourlyRec :=
      { date := date
        hour := hour
        avgTemperature := round1 (avgOf (temps sel))
        avgPressure := round1 (avgOf (pressures sel))
        avgHumidity := round1 (avgOf (humidities sel))
        samplesCount := sel.length
        updatedAt := now }
    (fun k => if k = (date, hour) then some r else s k, .ok ())

/-- `updateDailyStatistics(db)` from `main.go`.  `today` is the day
number of `time.Now()`; the target date is
`time.Now().AddDate(0, 0, -1)`, i.e. yesterday.  Computes avg/min/max of
each metric over that date's readings; with zero matching readings the
scan of the NULL aggregates fails and the wrapped query error is
returned with nothing written; otherwise it rounds and upserts into
`weather_daily` keyed by the date.  The `sea_temperature` column is not
in the insert column list (new rows get NULL) and not in the update
clause (existing rows keep their value). -/
def updateDailyStatistics (db : List Reading) (today now : Int)
    (s : DailyStore) : DailyStore × Except String Unit :=
  let date := today - 1
  let sel := db.filter (onDay date)
  if sel.length = 0 then (s, .error "failed to calculate daily statistics")
  else
    let r : DailyRec :=
      { date := date
        avgTemperature := round1 (avgOf (temps sel))
        minTemperature := round1 (minOf (temps sel))
        maxTemperature := round1 (maxOf (temps sel))
        avgPressure := round1 (avgOf (pressures sel))
        minPressure := round1 (minOf (pressures sel))
        maxPressure := round1 (maxOf (pressures sel))
        avgHumidity := round1 (avgOf (humidities sel))
        minHumidity := round1 (minOf (humidities sel))
        maxHumidity := round1 (maxOf (humidities sel))
        samplesCount := sel.length
        seaTemperature := match s date with
          | some old => old.seaTemperature
          | none => none
        updatedAt := now }
    (fun k => if k = date then some r else s k, .ok ())

/-- `updateWeeklyStatistics(db)` from `main.go`.  The window and the
`(year, week)` key come from `weeklyWindow today`; statistics are
computed over the readings whose date lies in `[weekStart, weekEnd]`;
with zero matching readings the scan of the NULL aggregates fails and
the wrapped query error is returned with nothing written; otherwise the
row is upserted into `weather_weekly` (all statistic fields, both window
dates and the sample count overwritten, `updated_at` refreshed). -/
def updateWeeklyStatistics (db : List Reading) (today now : Int)
    (s : WeeklyStore) : WeeklyStore × Except String Unit :=
  let w := weeklyWindow today
  let sel := db.filter (inRange w.weekStart w.weekEnd)
  if sel.length = 0 then (s, .error "failed to calculate weekly statistics")
  else
    let r : WeeklyRec :=
      { year := w.year
        week := w.week
        weekStart := w.weekStart
        weekEnd := w.weekEnd
        avgTemperature := round1 (avgOf (temps sel))
        minTemperature := round1 (minOf (temps sel))
        maxTemperature := round1 (maxOf (temps sel))
        avgPressure := round1 (avgOf (pressures sel))
        minPressure := round1 (minOf (pressures sel))
        maxPressure := round1 (maxOf (pressures sel))
        avgHumidity := round1 (avgOf (humidities sel))
        minHumidity := round1 (minOf (humidities sel))
        maxHumidity := round1 (maxOf (humidities sel))
        samplesCount := sel.length
        updatedAt := now }
    (fun k => if k = (w.year, w.week) then some r else s k, .ok ())

/-- `updateMonthlyStatistics(db)` from `main.go`.  The window and the
`(year, month)` key come from `monthlyWindow` applied to the civil date
of `time.Now()`; statistics are computed over the readings whose date
lies in `[firstDay, lastDay]`; with zero matching readings the scan of
the NULL aggregates fails and the wrapped query error is returned with
nothing written; otherwise the row is upserted into
`weather_monthly`. -/
def updateMonthlyStatistics (db : List Reading) (ty tm td now : Int)
    (s : MonthlyStore) : MonthlyStore × Except String Unit :=
  let w := monthlyWindow ty tm td
  let sel := db.filter (inRange w.firstDay w.lastDay)
  if sel.length = 0 then (s, .error "failed to calculate monthly statistics")
  else
    let r : MonthlyRec :=
      { year := w.year
        month := w.month
        avgTemperature := round1 (avgOf (temps sel))
        minTemperature := round1 (minOf (temps sel))
        maxTemperature := round1 (maxOf (temps sel))
        avgPressure := round1 (avgOf (pressures sel))
        minPressure := round1 (minOf (pressures sel))
        maxPressure := round1 (maxOf (pressures sel))
        avgHumidity := round1 (avgOf (humidities sel))
        minHumidity := round1 (minOf (humidities sel))
        maxHumidity := round1 (maxOf (humidities sel))
        samplesCount := sel.length
        updatedAt := now }
    (fun k => if k = (w.year, w.month) then some r else s k, .ok ())

/-! ## The Ingestion Step -/

/-- Result of one run of `processWeatherData`: the `weather` table, the
`weather_hourly` table and the value returned to the scheduler. -/
structure IngestResult where
  readings : List Reading
  hourly : HourlyStore
  result : Except String Unit

/-- `processWeatherData()` from `main.go`, for a run in which the file
was read and decoded and the raw insert succeeded (the claim under
verification conditions on exactly this situation).  `day` and `hour`
are the civil date and hour of `time.Unix(weatherData.Timestamp, 0)`;
the three raw metrics are rounded to one decimal place and inserted as a
new `weather` row; then `updateHourlyAverages` runs for that hour.
`hourlyFails` injects a failure of that cascading step (a query or exec
error inside `updateHourlyAverages`): the code only logs
`"Warning: Failed to update hourly averages"` and still returns `nil`,
leaving the hourly table as the failed step left it (no write
happened). -/
def processWeatherData (day hour : Int) (tRaw pRaw hRaw : ℚ)
    (db : List Reading) (s : HourlyStore) (now : Int) (hourlyFails : Bool) :
    IngestResult :=
  let temperature := round1 tRaw
  let pressure := round1 pRaw
  let humidity := round1 hRaw
  let db2 := db ++ [⟨day, hour, temperature, pressure, humidity⟩]
  if hourlyFails then ⟨db2, s, .ok ()⟩
  else
    let u := updateHourlyAverages db2 day hour now s
    ⟨db2, u.1, .ok ()⟩

/-! ## Helper lemmas -/

/-- Sanity checks of the calendar embedding on known dates: the epoch,
a round trip, known weekdays and ISO weeks, and the 2024 leap February. -/
theorem calendar_sanity :
    daysFromCivil 1970 1 1 = 0 ∧
    civilFromDays 0 = (1970, 1, 1) ∧
    civilFromDays (daysFromCivil 2024 1 7) = (2024, 1, 7) ∧
    weekday (daysFromCivil 2024 1 7) = 0 ∧
    weekday (daysFromCivil 2024 1 8) = 1 ∧
    isoWeek (daysFromCivil 2023 12 25) = (2023, 52) ∧
    isoWeek (daysFromCivil 2024 1 1) = (2024, 1) ∧
    daysFromCivil 2024 2 29 - daysFromCivil 2024 2 1 = 28 := by
  refine ⟨by decide, by decide, by decide, by decide, by decide, by decide, by decide, by decide⟩

/-- The window start written by the code, as a closed formula. -/
theorem weeklyWindow_weekStart (z : Int) :
    (weeklyWindow z).weekStart =
      if weekday z = 0 then z - 13 else z - weekday z - 6 := rfl

/-- The window end is six days after the start. -/
theorem weeklyWindow_weekEnd (z : Int) :
    (weeklyWindow z).weekEnd = (weeklyWindow z).weekStart + 6 := rfl

/-- The natural key is the ISO year and week of the window start. -/
theorem weeklyWindow_key (z : Int) :
    ((weeklyWindow z).year, (weeklyWindow z).week) =
      isoWeek (weeklyWindow z).weekStart := rfl

/-- The row written by a non-empty hourly aggregation. -/
theorem updateHourlyAverages_write (db : List Reading) (date hour now : Int)
    (s : HourlyStore) (h : (db.filter (inHour date hour)).length ≠ 0) :
    (updateHourlyAverages db date hour now s).1 (date, hour) =
      some { date := date
             hour := hour
             avgTemperature := round1 (avgOf (temps (db.filter (inHour date hour))))
             avgPressure := round1 (avgOf (pressures (db.filter (inHour date hour))))
             avgHumidity := round1 (avgOf (humidities (db.filter (inHour date hour))))
             samplesCount := (db.filter (inHour date hour)).length
             updatedAt := now } := by
  simp [updateHourlyAverages, h]

/-- The row written by a non-empty daily aggregation. -/
theorem updateDailyStatistics_write (db : List Reading) (today now : Int)
    (s : DailyStore) (h : (db.filter (onDay (today - 1))).length ≠ 0) :
    (updateDailyStatistics db today now s).1 (today - 1) =
      some { date := today - 1
             avgTemperature := round1 (avgOf (temps (db.filter (onDay (today - 1)))))
             minTemperature := round1 (minOf (temps (db.filter (onDay (today - 1)))))
             maxTemperature := round1 (maxOf (temps (db.filter (onDay (today - 1)))))
             avgPressure := round1 (avgOf (pressures (db.filter (onDay (today - 1)))))
             minPressure := round1 (minOf (pressures (db.filter (onDay (today - 1)))))
             maxPressure := round1 (maxOf (pressures (db.filter (onDay (today - 1)))))
             avgHumidity := round1 (avgOf (humidities (db.filter (onDay (today - 1)))))
             minHumidity := round1 (minOf (humidities (db.filter (onDay (today - 1)))))
             maxHumidity := round1 (maxOf (humidities (db.filter (onDay (today - 1)))))
             samplesCount := (db.filter (onDay (today - 1))).length
             seaTemperature := match s (today - 1) with
               | some old => old.seaTemperature
               | none => none
             updatedAt := now } := by
  simp [updateDailyStatistics, h]

/-- The row written by a non-empty weekly aggregation. -/
theorem updateWeeklyStatistics_write (db : List Reading) (today now : Int)
    (s : WeeklyStore)
    (h : (db.filter
      (inRange (weeklyWindow today).weekStart (weeklyWindow today).weekEnd)).length ≠ 0) :
    (updateWeeklyStatistics db today now s).1
        ((weeklyWindow today).year, (weeklyWindow today).week) =
      some { year := (weeklyWindow today).year
             week := (weeklyWindow today).week
             weekStart := (weeklyWindow today).weekStart
             weekEnd := (weeklyWindow today).weekEnd
             avgTemperature := round1 (avgOf (temps (db.filter
               (inRange (weeklyWindow today).weekStart (weeklyWindow today).weekEnd))))
             minTemperature := round1 (minOf (temps (db.filter
               (inRange (weeklyWindow today).weekStart (weeklyWindow today).weekEnd))))
             maxTemperature := round1 (maxOf (temps (db.filter
               (inRange (weeklyWindow today).weekStart (weeklyWindow today).weekEnd))))
             avgPressure := round1 (avgOf (pressures (db.filter
               (inRange (weeklyWindow today).weekStart (weeklyWindow today).weekEnd))))
             minPressure := round1 (minOf (pressures (db.filter
               (inRange (weeklyWindow today).weekStart (weeklyWindow today).weekEnd))))
             maxPressure := round1 (maxOf (pressures (db.filter
               (inRange (weeklyWindow today).weekStart (weeklyWindow today).weekEnd))))
             avgHumidity := round1 (avgOf (humidities (db.filter
               (inRange (weeklyWindow today).weekStart (weeklyWindow today).weekEnd))))
             minHumidity := round1 (minOf (humidities (db.filter
               (inRange (weeklyWindow today).weekStart (weeklyWindow today).weekEnd))))
             maxHumidity := round1 (maxOf (humidities (db.filter
               (inRange (weeklyWindow today).weekStart (weeklyWindow today).weekEnd))))
             samplesCount := (db.filter
               (inRange (weeklyWindow today).weekStart (weeklyWindow today).weekEnd)).length
             updatedAt := now } := by
  simp [updateWeeklyStatistics, h]

/-- The row written by a non-empty monthly aggregation. -/
theorem updateMonthlyStatistics_write (db : List Reading) (ty tm td now : Int)
    (s : MonthlyStore)
    (h : (db.filter
      (inRange (monthlyWindow ty tm td).firstDay (monthlyWindow ty tm td).lastDay)).length ≠ 0) :
    (updateMonthlyStatistics db ty tm td now s).1
        ((monthlyWindow ty tm td).year, (monthlyWindow ty tm td).month) =
      some { year := (monthlyWindow ty tm td).year
             month := (monthlyWindow ty tm td).month
             avgTemperature := round1 (avgOf (temps (db.filter
               (inRange (monthlyWindow ty tm td).firstDay (monthlyWindow ty tm td).lastDay))))
             minTemperature := round1 (minOf (temps (db.filter
               (inRange (monthlyWindow ty tm td).firstDay (monthlyWindow ty tm td).lastDay))))
             maxTemperature := round1 (maxOf (temps (db.filter
               (inRange (monthlyWindow ty tm td).firstDay (monthlyWindow ty tm td).lastDay))))
             avgPressure := round1 (avgOf (pressures (db.filter
               (inRange (monthlyWindow ty tm td).firstDay (monthlyWindow ty tm td).lastDay))))
             minPressure := round1 (minOf (pressures (db.filter
               (inRange (monthlyWindow ty tm td).firstDay (monthlyWindow ty tm td).lastDay))))
             maxPressure := round1 (maxOf (pressures (db.filter
               (inRange (monthlyWindow ty tm td).firstDay (monthlyWindow ty tm td).lastDay))))
             avgHumidity := round1 (avgOf (humidities (db.filter
               (inRange (monthlyWindow ty tm td).firstDay (monthlyWindow ty tm td).lastDay))))
             minHumidity := round1 (minOf (humidities (db.filter
               (inRange (monthlyWindow ty tm td).firstDay (monthlyWindow ty tm td).lastDay))))
             maxHumidity := round1 (maxOf (humidities (db.filter
               (inRange (monthlyWindow ty tm td).firstDay (monthlyWindow ty tm td).lastDay))))
             samplesCount := (db.filter
               (inRange (monthlyWindow ty tm td).firstDay (monthlyWindow ty tm td).lastDay)).length
             updatedAt := now } := by
  simp [updateMonthlyStatistics, h]

/-- The daily aggregation never touches a key other than yesterday. -/
theorem updateDailyStatistics_frame (db : List Reading) (today now : Int)
    (s : DailyStore) (d : Int) (hd : d ≠ today - 1) :
    (updateDailyStatistics db today now s).1 d = s d := by
  by_cases h : (db.filter (onDay (today - 1))).length = 0 <;>
    simp [updateDailyStatistics, h, hd]

/-- Row comparison up to the `updated_at` column. -/
def HourlyRec.clearUpdated (r : HourlyRec) : HourlyRec := { r with updatedAt := 0 }

/-- Row comparison up to the `updated_at` column. -/
def DailyRec.clearUpdated (r : DailyRec) : DailyRec := { r with updatedAt := 0 }

/-- Row comparison up to the `updated_at` column. -/
def WeeklyRec.clearUpdated (r : WeeklyRec) : WeeklyRec := { r with updatedAt := 0 }

/-- Row comparison up to the `updated_at` column. -/
def MonthlyRec.clearUpdated (r : MonthlyRec) : MonthlyRec := { r with updatedAt := 0 }

/-- Monday of the ISO week containing day `z`, written from the
specification's description of ISO weeks (Monday-starting weeks; a Sunday
is the last day of its week).  This is the specification-side definition
against which the window computed by the code is compared. -/
def isoWeekMonday (z : Int) : Int :=
  z - ((if weekday z = 0 then 7 else weekday z) - 1)

/-- One day before the first day of the month following `(y, m)` is the
last day of month `(y, m)`: the arithmetic fact behind the code's
`lastDay := firstDay.AddDate(0, 1, -1)`. -/
theorem daysFromCivil_month_end (y m : Int) (h1 : 1 ≤ m) (h2 : m ≤ 12) :
    (if m = 12 then daysFromCivil (y + 1) 1 1 else daysFromCivil y (m + 1) 1) - 1 =
      daysFromCivil y m (daysInMonth y m) := by
  interval_cases m <;>
    simp only [daysFromCivil, daysInMonth, isLeap, beq_iff_eq, bne_iff_ne,
      Bool.and_eq_true, Bool.or_eq_true, decide_eq_true_eq] <;>
    norm_num <;> omega

/-! ## The claims -/

/-- C1 (code bug): the claim — and the specification, the dead
`samplesCount == 0` guard in `main.go` itself, and the
`HAVING samples > 0` fix in the `part_001` variant — say a zero-reading
window must be a successful no-op.  In `main.go` as shipped, the
`HAVING`-less query of an empty window returns one row of NULL
aggregates, `Scan` into `float64` fails, and every granularity returns
the wrapped query error (while still writing nothing).  Evaluated here
at the empty readings table: each operation leaves the summary table
untouched but reports an error, not success. -/
theorem zeroSampleWindowReportsError :
    updateHourlyAverages [] 0 0 0 (fun _ => none) =
      (fun _ => none, Except.error "failed to calculate averages") ∧
    updateDailyStatistics [] 0 0 (fun _ => none) =
      (fun _ => none, Except.error "failed to calculate daily statistics") ∧
    updateWeeklyStatistics [] 0 0 (fun _ => none) =
      (fun _ => none, Except.error "failed to calculate weekly statistics") ∧
    updateMonthlyStatistics [] 2024 3 1 0 (fun _ => none) =
      (fun _ => none, Except.error "failed to calculate monthly statistics") :=
  ⟨rfl, rfl, rfl, rfl⟩

/-- C2: for every reference day the weekly window starts on the Monday of
the ISO week preceding the ISO week containing the reference (the Monday
of the containing week minus seven days) and ends six days later; when
the reference falls on a Sunday the window's Monday is exactly 13 days
before the reference; in particular reference Sunday 2024-01-07 yields
the window 2023-12-25 through 2023-12-31 (ISO week 52 of 2023). -/
theorem weeklyWindowIsPreviousIsoWeek :
    (∀ z, (weeklyWindow z).weekStart = isoWeekMonday z - 7 ∧
          (weeklyWindow z).weekEnd = (weeklyWindow z).weekStart + 6) ∧
    (∀ z, weekday z = 0 → (weeklyWindow z).weekStart = z - 13) ∧
    weekday (daysFromCivil 2024 1 7) = 0 ∧
    weeklyWindow (daysFromCivil 2024 1 7) =
      ⟨2023, 52, daysFromCivil 2023 12 25, daysFromCivil 2023 12 31⟩ := by
  refine ⟨fun z => ⟨?_, weeklyWindow_weekEnd z⟩, fun z h => ?_, by decide, by decide⟩
  · rw [weeklyWindow_weekStart]
    simp only [isoWeekMonday, weekday]
    split_ifs <;> omega
  · rw [weeklyWindow_weekStart, if_pos h]

/-- Witness for C2: the Sunday clause applied to the concrete Sunday
2024-01-07. -/
theorem weeklyWindowIsPreviousIsoWeek_witness :
    (weeklyWindow (daysFromCivil 2024 1 7)).weekStart = daysFromCivil 2024 1 7 - 13 :=
  weeklyWindowIsPreviousIsoWeek.2.1 (daysFromCivil 2024 1 7) (by decide)

/-- C7: for every ingestion run in which the raw reading insert succeeded,
a failure of the cascading hourly aggregation does not make the ingestion
step return an error: it still reports success, the raw reading is kept,
and the hourly table is as the failed step left it. -/
theorem ingestionSucceedsDespiteHourlyFailure :
    ∀ day hour tRaw pRaw hRaw db s now,
      (processWeatherData day hour tRaw pRaw hRaw db s now true).result = Except.ok () ∧
      (processWeatherData day hour tRaw pRaw hRaw db s now true).readings =
        db ++ [⟨day, hour, round1 tRaw, round1 pRaw, round1 hRaw⟩] ∧
      (processWeatherData day hour tRaw pRaw hRaw db s now true).hourly = s := by
  intros
  exact ⟨rfl, rfl, rfl⟩

/-- C8: the daily aggregation targets exactly the calendar date one day
before the reference date: no other key of the daily table is touched,
the written row (when the window is non-empty) is keyed by yesterday, and
yesterday is never the reference date itself. -/
theorem dailyAggregationTargetsYesterday :
    ∀ db today now s,
      (∀ d, d ≠ today - 1 → (updateDailyStatistics db today now s).1 d = s d) ∧
      ((db.filter (onDay (today - 1))).length ≠ 0 →
        ∃ r, (updateDailyStatistics db today now s).1 (today - 1) = some r ∧
          r.date = today - 1) ∧
      today - 1 ≠ today := by
  intro db today now s
  refine ⟨fun d hd => updateDailyStatistics_frame db today now s d hd, fun h => ?_, by omega⟩
  exact ⟨_, updateDailyStatistics_write db today now s h, rfl⟩

/-- Witness for C8 at a concrete state: one reading on day 4, reference
day 5. -/
theorem dailyAggregationTargetsYesterday_witness :
    (updateDailyStatistics [⟨4, 0, 10, 1000, 50⟩] 5 7 (fun _ => none)).1 9 = none ∧
    (∃ r, (updateDailyStatistics [⟨4, 0, 10, 1000, 50⟩] 5 7 (fun _ => none)).1 4 = some r ∧
      r.date = 4) := by
  have h := dailyAggregationTargetsYesterday [⟨4, 0, 10, 1000, 50⟩] 5 7 (fun _ => none)
  exact ⟨h.1 9 (by decide), h.2.1 (by decide)⟩

/-- C10: the weekly window is well formed for every reference day: its
start is a Monday, its end is six days after its start, and the
`(year, week)` natural key equals the ISO year and week of the start
Monday — both at the Window Calculator level and on every row the weekly
aggregation writes. -/
theorem weeklyWindowWellFormed :
    (∀ z, weekday (weeklyWindow z).weekStart = 1 ∧
          (weeklyWindow z).weekEnd = (weeklyWindow z).weekStart + 6 ∧
          ((weeklyWindow z).year, (weeklyWindow z).week) =
            isoWeek (weeklyWindow z).weekStart) ∧
    (∀ db today now s,
      (db.filter
        (inRange (weeklyWindow today).weekStart (weeklyWindow today).weekEnd)).length ≠ 0 →
      ∃ r, (updateWeeklyStatistics db today now s).1
            ((weeklyWindow today).year, (weeklyWindow today).week) = some r ∧
        r.weekStart = (weeklyWindow today).weekStart ∧
        r.weekEnd = (weeklyWindow today).weekEnd ∧
        weekday r.weekStart = 1 ∧
        (r.year, r.week) = isoWeek r.weekStart) := by
  have hmon : ∀ z, weekday (weeklyWindow z).weekStart = 1 := by
    intro z
    rw [weeklyWindow_weekStart]
    simp only [weekday]
    split_ifs <;> omega
  refine ⟨fun z => ⟨hmon z, weeklyWindow_weekEnd z, weeklyWindow_key z⟩, ?_⟩
  intro db today now s h
  refine ⟨_, updateWeeklyStatistics_write db today now s h, rfl, rfl, hmon today, ?_⟩
  exact weeklyWindow_key today

/-- Witness for C10's record clause: one reading inside the concrete
window of reference day 10 (a Sunday, window days -3 through 3). -/
theorem weeklyWindowWellFormed_witness :
    ∃ r, (updateWeeklyStatistics [⟨0, 0, 10, 1000, 50⟩] 10 7 (fun _ => none)).1
          ((weeklyWindow 10).year, (weeklyWindow 10).week) = some r ∧
      r.weekStart = (weeklyWindow 10).weekStart ∧
      r.weekEnd = (weeklyWindow 10).weekEnd ∧
      weekday r.weekStart = 1 ∧
      (r.year, r.week) = isoWeek r.weekStart :=
  weeklyWindowWellFormed.2 [⟨0, 0, 10, 1000, 50⟩] 10 7 (fun _ => none) (by decide)

/-- The month-decrement branch of Go `AddDate(0, -1, 0)` when the day of
month exists in the preceding month. -/
theorem lastMonthOf_of_le (y m d : Int)
    (h : d ≤ daysInMonth (if m = 1 then y - 1 else y) (if m = 1 then 12 else m - 1)) :
    lastMonthOf y m d =
      (if m = 1 then y - 1 else y, if m = 1 then 12 else m - 1, d) := by
  simp only [lastMonthOf]
  rw [if_pos h]

/-- C3 counterexample: 2024-03-31 is a reference date in March 2024, yet
the monthly window computation targets March (Go date normalization turns
2024-02-31 into 2024-03-02), not February. -/
theorem monthlyWindowMarch31OverflowsIntoMarch :
    (monthlyWindow 2024 3 31).month = 3 ∧
    monthlyWindow 2024 3 31 ≠
      ⟨2024, 2, daysFromCivil 2024 2 1, daysFromCivil 2024 2 29⟩ := by
  exact ⟨by decide, by decide⟩

/-- C3 (amended): for every reference civil date whose day of month also
exists in the calendar month immediately preceding the reference month —
in particular any day 1 through 28, so every scheduled run on the 1st —
the monthly window is the first through the last calendar day of that
preceding month, handling variable month lengths and year rollover; a
reference date such as 2024-03-15 yields 2024-02-01 through 2024-02-29,
and 2025-01-15 yields 2024-12-01 through 2024-12-31. -/
theorem monthlyWindowIsPreviousMonth :
    (∀ ty tm td, 1 ≤ tm → tm ≤ 12 → 1 ≤ td →
        td ≤ daysInMonth (if tm = 1 then ty - 1 else ty) (if tm = 1 then 12 else tm - 1) →
        monthlyWindow ty tm td =
          ⟨if tm = 1 then ty - 1 else ty, if tm = 1 then 12 else tm - 1,
           daysFromCivil (if tm = 1 then ty - 1 else ty) (if tm = 1 then 12 else tm - 1) 1,
           daysFromCivil (if tm = 1 then ty - 1 else ty) (if tm = 1 then 12 else tm - 1)
             (daysInMonth (if tm = 1 then ty - 1 else ty) (if tm = 1 then 12 else tm - 1))⟩) ∧
    monthlyWindow 2024 3 15 = ⟨2024, 2, daysFromCivil 2024 2 1, daysFromCivil 2024 2 29⟩ ∧
    monthlyWindow 2025 1 15 = ⟨2024, 12, daysFromCivil 2024 12 1, daysFromCivil 2024 12 31⟩ := by
  refine ⟨?_, by decide, by decide⟩
  intro ty tm td h1 h2 h3 h4
  have hb1 : (1 : Int) ≤ (if tm = 1 then 12 else tm - 1) := by split_ifs <;> omega
  have hb2 : (if tm = 1 then (12 : Int) else tm - 1) ≤ 12 := by split_ifs <;> omega
  have hend := daysFromCivil_month_end (if tm = 1 then ty - 1 else ty)
    (if tm = 1 then 12 else tm - 1) hb1 hb2
  simp only [monthlyWindow, lastMonthOf_of_le ty tm td h4]
  rw [hend]

/-- Witness for C3 (amended): the general clause applied to the concrete
reference 2024-03-15 (its day of month, 15, exists in February 2024). -/
theorem monthlyWindowIsPreviousMonth_witness :
    monthlyWindow 2024 3 15 =
      ⟨2024, 2, daysFromCivil 2024 2 1, daysFromCivil 2024 2 29⟩ := by
  have h := monthlyWindowIsPreviousMonth.1 2024 3 15
    (by decide) (by decide) (by decide) (by decide)
  simpa using h

/-- C4: for every granularity and every window, running the aggregation
twice over the same unchanged reading data produces an identical Summary
Record both times in every field except the update timestamp. -/
theorem aggregationIsIdempotent :
    (∀ db date hour t1 t2 s, (db.filter (inHour date hour)).length ≠ 0 →
        ∃ r1 r2,
          (updateHourlyAverages db date hour t1 s).1 (date, hour) = some r1 ∧
          (updateHourlyAverages db date hour t2
              (updateHourlyAverages db date hour t1 s).1).1 (date, hour) = some r2 ∧
          r1.clearUpdated = r2.clearUpdated) ∧
    (∀ db today t1 t2 s, (db.filter (onDay (today - 1))).length ≠ 0 →
        ∃ r1 r2,
          (updateDailyStatistics db today t1 s).1 (today - 1) = some r1 ∧
          (updateDailyStatistics db today t2
              (updateDailyStatistics db today t1 s).1).1 (today - 1) = some r2 ∧
          r1.clearUpdated = r2.clearUpdated) ∧
    (∀ db today t1 t2 s,
        (db.filter
          (inRange (weeklyWindow today).weekStart (weeklyWindow today).weekEnd)).length ≠ 0 →
        ∃ r1 r2,
          (updateWeeklyStatistics db today t1 s).1
              ((weeklyWindow today).year, (weeklyWindow today).week) = some r1 ∧
          (updateWeeklyStatistics db today t2
              (updateWeeklyStatistics db today t1 s).1).1
              ((weeklyWindow today).year, (weeklyWindow today).week) = some r2 ∧
          r1.clearUpdated = r2.clearUpdated) ∧
    (∀ db ty tm td t1 t2 s,
        (db.filter
          (inRange (monthlyWindow ty tm td).firstDay (monthlyWindow ty tm td).lastDay)).length ≠ 0 →
        ∃ r1 r2,
          (updateMonthlyStatistics db ty tm td t1 s).1
              ((monthlyWindow ty tm td).year, (monthlyWindow ty tm td).month) = some r1 ∧
          (updateMonthlyStatistics db ty tm td t2
              (updateMonthlyStatistics db ty tm td t1 s).1).1
              ((monthlyWindow ty tm td).year, (monthlyWindow ty tm td).month) = some r2 ∧
          r1.clearUpdated = r2.clearUpdated) := by
  refine ⟨?_, ?_, ?_, ?_⟩
  · intro db date hour t1 t2 s h
    exact ⟨_, _, updateHourlyAverages_write db date hour t1 s h,
      updateHourlyAverages_write db date hour t2 _ h, rfl⟩
  · intro db today t1 t2 s h
    have h1 := updateDailyStatistics_write db today t1 s h
    refine ⟨_, _, h1, updateDailyStatistics_write db today t2 _ h, ?_⟩
    simp only [DailyRec.clearUpdated]
    rw [h1]
  · intro db today t1 t2 s h
    exact ⟨_, _, updateWeeklyStatistics_write db today t1 s h,
      updateWeeklyStatistics_write db today t2 _ h, rfl⟩
  · intro db ty tm td t1 t2 s h
    exact ⟨_, _, updateMonthlyStatistics_write db ty tm td t1 s h,
      updateMonthlyStatistics_write db ty tm td t2 _ h, rfl⟩

/-- Witness for C4: one concrete reading per granularity window, run
twice with write times 1 and 2. -/
theorem aggregationIsIdempotent_witness :
    (∃ r1 r2,
      (updateHourlyAverages [⟨4, 0, 10, 1000, 50⟩] 4 0 1 (fun _ => none)).1 (4, 0) = some r1 ∧
      (updateHourlyAverages [⟨4, 0, 10, 1000, 50⟩] 4 0 2
          (updateHourlyAverages [⟨4, 0, 10, 1000, 50⟩] 4 0 1 (fun _ => none)).1).1 (4, 0) = some r2 ∧
      r1.clearUpdated = r2.clearUpdated) ∧
    (∃ r1 r2,
      (updateDailyStatistics [⟨4, 0, 10, 1000, 50⟩] 5 1 (fun _ => none)).1 4 = some r1 ∧
      (updateDailyStatistics [⟨4, 0, 10, 1000, 50⟩] 5 2
          (updateDailyStatistics [⟨4, 0, 10, 1000, 50⟩] 5 1 (fun _ => none)).1).1 4 = some r2 ∧
      r1.clearUpdated = r2.clearUpdated) ∧
    (∃ r1 r2,
      (updateWeeklyStatistics [⟨0, 0, 10, 1000, 50⟩] 10 1 (fun _ => none)).1
          ((weeklyWindow 10).year, (weeklyWindow 10).week) = some r1 ∧
      (updateWeeklyStatistics [⟨0, 0, 10, 1000, 50⟩] 10 2
          (updateWeeklyStatistics [⟨0, 0, 10, 1000, 50⟩] 10 1 (fun _ => none)).1).1
          ((weeklyWindow 10).year, (weeklyWindow 10).week) = some r2 ∧
      r1.clearUpdated = r2.clearUpdated) ∧
    (∃ r1 r2,
      (updateMonthlyStatistics [⟨daysFromCivil 2024 2 10, 0, 10, 1000, 50⟩] 2024 3 1 1
          (fun _ => none)).1
          ((monthlyWindow 2024 3 1).year, (monthlyWindow 2024 3 1).month) = some r1 ∧
      (updateMonthlyStatistics [⟨daysFromCivil 2024 2 10, 0, 10, 1000, 50⟩] 2024 3 1 2
          (updateMonthlyStatistics [⟨daysFromCivil 2024 2 10, 0, 10, 1000, 50⟩] 2024 3 1 1
            (fun _ => none)).1).1
          ((monthlyWindow 2024 3 1).year, (monthlyWindow 2024 3 1).month) = some r2 ∧
      r1.clearUpdated = r2.clearUpdated) :=
  ⟨aggregationIsIdempotent.1 [⟨4, 0, 10, 1000, 50⟩] 4 0 1 2 (fun _ => none) (by decide),
   aggregationIsIdempotent.2.1 [⟨4, 0, 10, 1000, 50⟩] 5 1 2 (fun _ => none) (by decide),
   aggregationIsIdempotent.2.2.1 [⟨0, 0, 10, 1000, 50⟩] 10 1 2 (fun _ => none) (by decide),
   aggregationIsIdempotent.2.2.2 [⟨daysFromCivil 2024 2 10, 0, 10, 1000, 50⟩] 2024 3 1 1 2
     (fun _ => none) (by decide)⟩

/-- C5: for every daily-summary upsert, the `sea_temperature` field of
the targeted `weather_daily` row is neither inserted nor overwritten: a
pre-existing value survives any recomputation unchanged, and a row that
had no value (or did not exist) never gains one. -/
theorem dailyUpsertPreservesSeaTemperature :
    (∀ db today now s r, s (today - 1) = some r →
        ∃ r2, (updateDailyStatistics db today now s).1 (today - 1) = some r2 ∧
          r2.seaTemperature = r.seaTemperature) ∧
    (∀ db today now s, s (today - 1) = none →
        ((updateDailyStatistics db today now s).1 (today - 1)).bind
          DailyRec.seaTemperature = none) := by
  constructor
  · intro db today now s r hr
    by_cases h : (db.filter (onDay (today - 1))).length = 0
    · exact ⟨r, by simp [updateDailyStatistics, h, hr], rfl⟩
    · refine ⟨_, updateDailyStatistics_write db today now s h, ?_⟩
      simp [hr]
  · intro db today now s hn
    by_cases h : (db.filter (onDay (today - 1))).length = 0
    · simp [updateDailyStatistics, h, hn]
    · rw [updateDailyStatistics_write db today now s h]
      simp [hn]

/-- Witness for C5: a pre-existing row for day 4 carrying sea temperature
21 keeps it across a recomputation; with an empty store no sea
temperature appears. -/
theorem dailyUpsertPreservesSeaTemperature_witness :
    (∃ r2, (updateDailyStatistics [⟨4, 0, 10, 1000, 50⟩] 5 7
        (fun d => if d = 4
          then some ⟨4, 0, 0, 0, 0, 0, 0, 0, 0, 0, 1, some 21, 0⟩ else none)).1 4 = some r2 ∧
      r2.seaTemperature = (⟨4, 0, 0, 0, 0, 0, 0, 0, 0, 0, 1, some 21, 0⟩ : DailyRec).seaTemperature) ∧
    ((updateDailyStatistics [⟨4, 0, 10, 1000, 50⟩] 5 7 (fun _ => none)).1 4).bind
      DailyRec.seaTemperature = none :=
  ⟨dailyUpsertPreservesSeaTemperature.1 [⟨4, 0, 10, 1000, 50⟩] 5 7
      (fun d => if d = 4
        then some ⟨4, 0, 0, 0, 0, 0, 0, 0, 0, 0, 1, some 21, 0⟩ else none)
      ⟨4, 0, 0, 0, 0, 0, 0, 0, 0, 0, 1, some 21, 0⟩ rfl,
   dailyUpsertPreservesSeaTemperature.2 [⟨4, 0, 10, 1000, 50⟩] 5 7 (fun _ => none) rfl⟩

/-- Computation rule for `round1` on a nonnegative argument whose rounded
value is known by bounds. -/
theorem round1_eq_of (q : ℚ) (n : Int) (h0 : 0 ≤ q * 10)
    (hl : (n : ℚ) ≤ q * 10 + 1/2) (hu : q * 10 + 1/2 < n + 1) :
    round1 q = (n : ℚ) / 10 := by
  have hf : ⌊q * 10 + 1/2⌋ = n := Int.floor_eq_iff.mpr ⟨hl, by exact_mod_cast hu⟩
  rw [round1, roundHalf, if_pos h0, hf]

/-- C9: the hourly aggregation computes and writes only the averages of
the three metrics plus the sample count for the date-and-hour window of
the reference timestamp (the whole `weather_hourly` row is exactly these
fields — no min/max), while the daily, weekly and monthly aggregations
write avg, min and max of each metric. -/
theorem hourlyOmitsMinMaxOthersComputeThem :
    (∀ db date hour now s, (db.filter (inHour date hour)).length ≠ 0 →
        (updateHourlyAverages db date hour now s).1 (date, hour) =
          some { date := date
                 hour := hour
                 avgTemperature := round1 (avgOf (temps (db.filter (inHour date hour))))
                 avgPressure := round1 (avgOf (pressures (db.filter (inHour date hour))))
                 avgHumidity := round1 (avgOf (humidities (db.filter (inHour date hour))))
                 samplesCount := (db.filter (inHour date hour)).length
                 updatedAt := now }) ∧
    (∀ db today now s, (db.filter (onDay (today - 1))).length ≠ 0 →
        ∃ r, (updateDailyStatistics db today now s).1 (today - 1) = some r ∧
          r.avgTemperature = round1 (avgOf (temps (db.filter (onDay (today - 1))))) ∧
          r.minTemperature = round1 (minOf (temps (db.filter (onDay (today - 1))))) ∧
          r.maxTemperature = round1 (maxOf (temps (db.filter (onDay (today - 1))))) ∧
          r.avgPressure = round1 (avgOf (pressures (db.filter (onDay (today - 1))))) ∧
          r.minPressure = round1 (minOf (pressures (db.filter (onDay (today - 1))))) ∧
          r.maxPressure = round1 (maxOf (pressures (db.filter (onDay (today - 1))))) ∧
          r.avgHumidity = round1 (avgOf (humidities (db.filter (onDay (today - 1))))) ∧
          r.minHumidity = round1 (minOf (humidities (db.filter (onDay (today - 1))))) ∧
          r.maxHumidity = round1 (maxOf (humidities (db.filter (onDay (today - 1)))))) ∧
    (∀ db today now s,
        (db.filter
          (inRange (weeklyWindow today).weekStart (weeklyWindow today).weekEnd)).length ≠ 0 →
        ∃ r, (updateWeeklyStatistics db today now s).1
            ((weeklyWindow today).year, (weeklyWindow today).week) = some r ∧
          r.avgTemperature = round1 (avgOf (temps (db.filter
            (inRange (weeklyWindow today).weekStart (weeklyWindow today).weekEnd)))) ∧
          r.minTemperature = round1 (minOf (temps (db.filter
            (inRange (weeklyWindow today).weekStart (weeklyWindow today).weekEnd)))) ∧
          r.maxTemperature = round1 (maxOf (temps (db.filter
            (inRange (weeklyWindow today).weekStart (weeklyWindow today).weekEnd)))) ∧
          r.avgPressure = round1 (avgOf (pressures (db.filter
            (inRange (weeklyWindow today).weekStart (weeklyWindow today).weekEnd)))) ∧
          r.minPressure = round1 (minOf (pressures (db.filter
            (inRange (weeklyWindow today).weekStart (weeklyWindow today).weekEnd)))) ∧
          r.maxPressure = round1 (maxOf (pressures (db.filter
            (inRange (weeklyWindow today).weekStart (weeklyWindow today).weekEnd)))) ∧
          r.avgHumidity = round1 (avgOf (humidities (db.filter
            (inRange (weeklyWindow today).weekStart (weeklyWindow today).weekEnd)))) ∧
          r.minHumidity = round1 (minOf (humidities (db.filter
            (inRange (weeklyWindow today).weekStart (weeklyWindow today).weekEnd)))) ∧
          r.maxHumidity = round1 (maxOf (humidities (db.filter
            (inRange (weeklyWindow today).weekStart (weeklyWindow today).weekEnd))))) ∧
    (∀ db ty tm td now s,
        (db.filter
          (inRange (monthlyWindow ty tm td).firstDay (monthlyWindow ty tm td).lastDay)).length ≠ 0 →
        ∃ r, (updateMonthlyStatistics db ty tm td now s).1
            ((monthlyWindow ty tm td).year, (monthlyWindow ty tm td).month) = some r ∧
          r.avgTemperature = round1 (avgOf (temps (db.filter
            (inRange (monthlyWindow ty tm td).firstDay (monthlyWindow ty tm td).lastDay)))) ∧
          r.minTemperature = round1 (minOf (temps (db.filter
            (inRange (monthlyWindow ty tm td).firstDay (monthlyWindow ty tm td).lastDay)))) ∧
          r.maxTemperature = round1 (maxOf (temps (db.filter
            (inRange (monthlyWindow ty tm td).firstDay (monthlyWindow ty tm td).lastDay)))) ∧
          r.avgPressure = round1 (avgOf (pressures (db.filter
            (inRange (monthlyWindow ty tm td).firstDay (monthlyWindow ty tm td).lastDay)))) ∧
          r.minPressure = round1 (minOf (pressures (db.filter
            (inRange (monthlyWindow ty tm td).firstDay (monthlyWindow ty tm td).lastDay)))) ∧
          r.maxPressure = round1 (maxOf (pressures (db.filter
            (inRange (monthlyWindow ty tm td).firstDay (monthlyWindow ty tm td).lastDay)))) ∧
          r.avgHumidity = round1 (avgOf (humidities (db.filter
            (inRange (monthlyWindow ty tm td).firstDay (monthlyWindow ty tm td).lastDay)))) ∧
          r.minHumidity = round1 (minOf (humidities (db.filter
            (inRange (monthlyWindow ty tm td).firstDay (monthlyWindow ty tm td).lastDay)))) ∧
          r.maxHumidity = round1 (maxOf (humidities (db.filter
            (inRange (monthlyWindow ty tm td).firstDay (monthlyWindow ty tm td).lastDay))))) := by
  refine ⟨?_, ?_, ?_, ?_⟩
  · intro db date hour now s h
    exact updateHourlyAverages_write db date hour now s h
  · intro db today now s h
    exact ⟨_, updateDailyStatistics_write db today now s h,
      rfl, rfl, rfl, rfl, rfl, rfl, rfl, rfl, rfl⟩
  · intro db today now s h
    exact ⟨_, updateWeeklyStatistics_write db today now s h,
      rfl, rfl, rfl, rfl, rfl, rfl, rfl, rfl, rfl⟩
  · intro db ty tm td now s h
    exact ⟨_, updateMonthlyStatistics_write db ty tm td now s h,
      rfl, rfl, rfl, rfl, rfl, rfl, rfl, rfl, rfl⟩

/-- Witness for C9: one concrete reading per granularity window. -/
theorem hourlyOmitsMinMaxOthersComputeThem_witness :
    (updateHourlyAverages [⟨4, 0, 10, 1000, 50⟩] 4 0 1 (fun _ => none)).1 (4, 0) =
      some { date := 4
             hour := 0
             avgTemperature := round1 (avgOf (temps
               (List.filter (inHour 4 0) [⟨4, 0, 10, 1000, 50⟩])))
             avgPressure := round1 (avgOf (pressures
               (List.filter (inHour 4 0) [⟨4, 0, 10, 1000, 50⟩])))
             avgHumidity := round1 (avgOf (humidities
               (List.filter (inHour 4 0) [⟨4, 0, 10, 1000, 50⟩])))
             samplesCount := (List.filter (inHour 4 0) [⟨4, 0, 10, 1000, 50⟩]).length
             updatedAt := 1 } ∧
    (∃ r, (updateDailyStatistics [⟨4, 0, 10, 1000, 50⟩] 5 1 (fun _ => none)).1 4 = some r ∧
      r.minTemperature = round1 (minOf (temps
        (List.filter (onDay 4) [⟨4, 0, 10, 1000, 50⟩])))) ∧
    (∃ r, (updateWeeklyStatistics [⟨0, 0, 10, 1000, 50⟩] 10 1 (fun _ => none)).1
        ((weeklyWindow 10).year, (weeklyWindow 10).week) = some r ∧
      r.maxTemperature = round1 (maxOf (temps (List.filter
        (inRange (weeklyWindow 10).weekStart (weeklyWindow 10).weekEnd)
        [⟨0, 0, 10, 1000, 50⟩])))) ∧
    (∃ r, (updateMonthlyStatistics [⟨daysFromCivil 2024 2 10, 0, 10, 1000, 50⟩] 2024 3 1 1
        (fun _ => none)).1
        ((monthlyWindow 2024 3 1).year, (monthlyWindow 2024 3 1).month) = some r ∧
      r.minPressure = round1 (minOf (pressures (List.filter
        (inRange (monthlyWindow 2024 3 1).firstDay (monthlyWindow 2024 3 1).lastDay)
        [⟨daysFromCivil 2024 2 10, 0, 10, 1000, 50⟩])))) := by
  have h1 := hourlyOmitsMinMaxOthersComputeThem.1 [⟨4, 0, 10, 1000, 50⟩] 4 0 1
    (fun _ => none) (by decide)
  have h2 := hourlyOmitsMinMaxOthersComputeThem.2.1 [⟨4, 0, 10, 1000, 50⟩] 5 1
    (fun _ => none) (by decide)
  have h3 := hourlyOmitsMinMaxOthersComputeThem.2.2.1 [⟨0, 0, 10, 1000, 50⟩] 10 1
    (fun _ => none) (by decide)
  have h4 := hourlyOmitsMinMaxOthersComputeThem.2.2.2
    [⟨daysFromCivil 2024 2 10, 0, 10, 1000, 50⟩] 2024 3 1 1 (fun _ => none) (by decide)
  obtain ⟨r2, hr2, ha2, hb2, -⟩ := h2
  obtain ⟨r3, hr3, -, -, hb3, -⟩ := h3
  obtain ⟨r4, hr4, -, -, -, -, hb4, -⟩ := h4
  exact ⟨h1, ⟨r2, hr2, hb2⟩, ⟨r3, hr3, hb3⟩, ⟨r4, hr4, hb4⟩⟩

/-- Computation rule for `round1` on a negative argument whose rounded
value is known by bounds. -/
theorem round1_neg_eq_of (q : ℚ) (n : Int) (h0 : ¬ 0 ≤ q * 10)
    (hl : (n : ℚ) ≤ -(q * 10) + 1/2) (hu : -(q * 10) + 1/2 < n + 1) :
    round1 q = -(n : ℚ) / 10 := by
  have hf : ⌊-(q * 10) + 1/2⌋ = n := Int.floor_eq_iff.mpr ⟨hl, by exact_mod_cast hu⟩
  rw [round1, roundHalf, if_neg h0, hf]
  push_cast
  ring

/-- C6: every statistic written to a summary table — the hourly averages
and the daily, weekly and monthly avg/min/max of each of the three
metrics — is `round1` (exactly one decimal place, half away from zero in
both directions) of the aggregate computed over the already-rounded
stored values; in particular for raw hourly temperature inputs 10.04 and
10.06 the stored readings are 10.0 and 10.1 and the stored hourly
average is 10.1 — not 10.05 and not 10.0. -/
theorem statisticsRoundedToOneDecimal :
    (∀ db date hour now s, (db.filter (inHour date hour)).length ≠ 0 →
        ∃ r, (updateHourlyAverages db date hour now s).1 (date, hour) = some r ∧
          r.avgTemperature = round1 (avgOf (temps (db.filter (inHour date hour)))) ∧
          r.avgPressure = round1 (avgOf (pressures (db.filter (inHour date hour)))) ∧
          r.avgHumidity = round1 (avgOf (humidities (db.filter (inHour date hour))))) ∧
    (∀ db today now s, (db.filter (onDay (today - 1))).length ≠ 0 →
        ∃ r, (updateDailyStatistics db today now s).1 (today - 1) = some r ∧
          r.avgTemperature = round1 (avgOf (temps (db.filter (onDay (today - 1))))) ∧
          r.minTemperature = round1 (minOf (temps (db.filter (onDay (today - 1))))) ∧
          r.maxTemperature = round1 (maxOf (temps (db.filter (onDay (today - 1))))) ∧
          r.avgPressure = round1 (avgOf (pressures (db.filter (onDay (today - 1))))) ∧
          r.minPressure = round1 (minOf (pressures (db.filter (onDay (today - 1))))) ∧
          r.maxPressure = round1 (maxOf (pressures (db.filter (onDay (today - 1))))) ∧
          r.avgHumidity = round1 (avgOf (humidities (db.filter (onDay (today - 1))))) ∧
          r.minHumidity = round1 (minOf (humidities (db.filter (onDay (today - 1))))) ∧
          r.maxHumidity = round1 (maxOf (humidities (db.filter (onDay (today - 1)))))) ∧
    (∀ db today now s,
        (db.filter
          (inRange (weeklyWindow today).weekStart (weeklyWindow today).weekEnd)).length ≠ 0 →
        ∃ r, (updateWeeklyStatistics db today now s).1
            ((weeklyWindow today).year, (weeklyWindow today).week) = some r ∧
          r.avgTemperature = round1 (avgOf (temps (db.filter
            (inRange (weeklyWindow today).weekStart (weeklyWindow today).weekEnd)))) ∧
          r.minTemperature = round1 (minOf (temps (db.filter
            (inRange (weeklyWindow today).weekStart (weeklyWindow today).weekEnd)))) ∧
          r.maxTemperature = round1 (maxOf (temps (db.filter
            (inRange (weeklyWindow today).weekStart (weeklyWindow today).weekEnd)))) ∧
          r.avgPressure = round1 (avgOf (pressures (db.filter
            (inRange (weeklyWindow today).weekStart (weeklyWindow today).weekEnd)))) ∧
          r.minPressure = round1 (minOf (pressures (db.filter
            (inRange (weeklyWindow today).weekStart (weeklyWindow today).weekEnd)))) ∧
          r.maxPressure = round1 (maxOf (pressures (db.filter
            (inRange (weeklyWindow today).weekStart (weeklyWindow today).weekEnd)))) ∧
          r.avgHumidity = round1 (avgOf (humidities (db.filter
            (inRange (weeklyWindow today).weekStart (weeklyWindow today).weekEnd)))) ∧
          r.minHumidity = round1 (minOf (humidities (db.filter
            (inRange (weeklyWindow today).weekStart (weeklyWindow today).weekEnd)))) ∧
          r.maxHumidity = round1 (maxOf (humidities (db.filter
            (inRange (weeklyWindow today).weekStart (weeklyWindow today).weekEnd))))) ∧
    (∀ db ty tm td now s,
        (db.filter
          (inRange (monthlyWindow ty tm td).firstDay (monthlyWindow ty tm td).lastDay)).length ≠ 0 →
        ∃ r, (updateMonthlyStatistics db ty tm td now s).1
            ((monthlyWindow ty tm td).year, (monthlyWindow ty tm td).month) = some r ∧
          r.avgTemperature = round1 (avgOf (temps (db.filter
            (inRange (monthlyWindow ty tm td).firstDay (monthlyWindow ty tm td).lastDay)))) ∧
          r.minTemperature = round1 (minOf (temps (db.filter
            (inRange (monthlyWindow ty tm td).firstDay (monthlyWindow ty tm td).lastDay)))) ∧
          r.maxTemperature = round1 (maxOf (temps (db.filter
            (inRange (monthlyWindow ty tm td).firstDay (monthlyWindow ty tm td).lastDay)))) ∧
          r.avgPressure = round1 (avgOf (pressures (db.filter
            (inRange (monthlyWindow ty tm td).firstDay (monthlyWindow ty tm td).lastDay)))) ∧
          r.minPressure = round1 (minOf (pressures (db.filter
            (inRange (monthlyWindow ty tm td).firstDay (monthlyWindow ty tm td).lastDay)))) ∧
          r.maxPressure = round1 (maxOf (pressures (db.filter
            (inRange (monthlyWindow ty tm td).firstDay (monthlyWindow ty tm td).lastDay)))) ∧
          r.avgHumidity = round1 (avgOf (humidities (db.filter
            (inRange (monthlyWindow ty tm td).firstDay (monthlyWindow ty tm td).lastDay)))) ∧
          r.minHumidity = round1 (minOf (humidities (db.filter
            (inRange (monthlyWindow ty tm td).firstDay (monthlyWindow ty tm td).lastDay)))) ∧
          r.maxHumidity = round1 (maxOf (humidities (db.filter
            (inRange (monthlyWindow ty tm td).firstDay (monthlyWindow ty tm td).lastDay))))) ∧
    round1 (10.05 : ℚ) = 10.1 ∧ round1 (-10.05 : ℚ) = -10.1 ∧
    (processWeatherData 0 12 10.06 1000 50
        (processWeatherData 0 12 10.04 1000 50 [] (fun _ => none) 1 false).readings
        (processWeatherData 0 12 10.04 1000 50 [] (fun _ => none) 1 false).hourly
        2 false).readings =
      [⟨0, 12, 10, 1000, 50⟩, ⟨0, 12, 10.1, 1000, 50⟩] ∧
    (∃ r, (processWeatherData 0 12 10.06 1000 50
        (processWeatherData 0 12 10.04 1000 50 [] (fun _ => none) 1 false).readings
        (processWeatherData 0 12 10.04 1000 50 [] (fun _ => none) 1 false).hourly
        2 false).hourly (0, 12) = some r ∧
      r.avgTemperature = 10.1 ∧ r.samplesCount = 2) ∧
    (10.1 : ℚ) ≠ 10.05 ∧ (10.1 : ℚ) ≠ 10 := by
  have e04 : round1 (10.04 : ℚ) = 10 := by
    rw [round1_eq_of 10.04 100 (by norm_num) (by norm_num) (by norm_num)]
    norm_num
  have e06 : round1 (10.06 : ℚ) = 10.1 := by
    rw [round1_eq_of 10.06 101 (by norm_num) (by norm_num) (by norm_num)]
    norm_num
  have e1000 : round1 (1000 : ℚ) = 1000 := by
    rw [round1_eq_of 1000 10000 (by norm_num) (by norm_num) (by norm_num)]
    norm_num
  have e50 : round1 (50 : ℚ) = 50 := by
    rw [round1_eq_of 50 500 (by norm_num) (by norm_num) (by norm_num)]
    norm_num
  have eavg : round1 (avgOf [(10 : ℚ), 10.1]) = 10.1 := by
    have : avgOf [(10 : ℚ), 10.1] = 201/20 := by
      simp [avgOf]
      norm_num
    rw [this, round1_eq_of (201/20) 101 (by norm_num) (by norm_num) (by norm_num)]
    norm_num
  have e105 : round1 (10.05 : ℚ) = 10.1 := by
    rw [round1_eq_of 10.05 101 (by norm_num) (by norm_num) (by norm_num)]
    norm_num
  have e105n : round1 (-10.05 : ℚ) = -10.1 := by
    rw [round1_neg_eq_of (-10.05) 101 (by norm_num) (by norm_num) (by norm_num)]
    norm_num
  refine ⟨?_, ?_, ?_, ?_, e105, e105n, ?_, ?_, by norm_num, by norm_num⟩
  · intro db date hour now s h
    exact ⟨_, updateHourlyAverages_write db date hour now s h, rfl, rfl, rfl⟩
  · intro db today now s h
    exact ⟨_, updateDailyStatistics_write db today now s h,
      rfl, rfl, rfl, rfl, rfl, rfl, rfl, rfl, rfl⟩
  · intro db today now s h
    exact ⟨_, updateWeeklyStatistics_write db today now s h,
      rfl, rfl, rfl, rfl, rfl, rfl, rfl, rfl, rfl⟩
  · intro db ty tm td now s h
    exact ⟨_, updateMonthlyStatistics_write db ty tm td now s h,
      rfl, rfl, rfl, rfl, rfl, rfl, rfl, rfl, rfl⟩
  · simp only [processWeatherData, Bool.false_eq_true, if_false, List.nil_append,
      e04, e06, e1000, e50]
    rfl
  · simp only [processWeatherData, Bool.false_eq_true, if_false, List.nil_append,
      List.singleton_append, e04, e06, e1000, e50]
    have hw := updateHourlyAverages_write
      [⟨0, 12, 10, 1000, 50⟩, ⟨0, 12, (10.1 : ℚ), 1000, 50⟩] 0 12 2
      (updateHourlyAverages [⟨0, 12, 10, 1000, 50⟩] 0 12 1 (fun _ => none)).1 (by decide)
    refine ⟨_, hw, ?_, by decide⟩
    show round1 (avgOf (temps (List.filter (inHour 0 12)
      [⟨0, 12, 10, 1000, 50⟩, ⟨0, 12, (10.1 : ℚ), 1000, 50⟩]))) = 10.1
    rw [show temps (List.filter (inHour 0 12)
        [⟨0, 12, 10, 1000, 50⟩, ⟨0, 12, (10.1 : ℚ), 1000, 50⟩]) =
      [10, (10.1 : ℚ)] from rfl]
    exact eavg

/-- Witness for C6: each general clause applied at one concrete reading
inside the matching window. -/
theorem statisticsRoundedToOneDecimal_witness :
    (∃ r, (updateHourlyAverages [⟨6, 3, 11, 1013, 55⟩] 6 3 1 (fun _ => none)).1 (6, 3) =
        some r ∧
      r.avgTemperature = round1 (avgOf (temps
        (List.filter (inHour 6 3) [⟨6, 3, 11, 1013, 55⟩])))) ∧
    (∃ r, (updateDailyStatistics [⟨6, 3, 11, 1013, 55⟩] 7 1 (fun _ => none)).1 6 =
        some r ∧
      r.avgPressure = round1 (avgOf (pressures
        (List.filter (onDay 6) [⟨6, 3, 11, 1013, 55⟩])))) ∧
    (∃ r, (updateWeeklyStatistics [⟨6, 3, 11, 1013, 55⟩] 17 1 (fun _ => none)).1
        ((weeklyWindow 17).year, (weeklyWindow 17).week) = some r ∧
      r.avgHumidity = round1 (avgOf (humidities (List.filter
        (inRange (weeklyWindow 17).weekStart (weeklyWindow 17).weekEnd)
        [⟨6, 3, 11, 1013, 55⟩])))) ∧
    (∃ r, (updateMonthlyStatistics [⟨daysFromCivil 2024 4 10, 3, 11, 1013, 55⟩] 2024 5 1 1
        (fun _ => none)).1
        ((monthlyWindow 2024 5 1).year, (monthlyWindow 2024 5 1).month) = some r ∧
      r.avgTemperature = round1 (avgOf (temps (List.filter
        (inRange (monthlyWindow 2024 5 1).firstDay (monthlyWindow 2024 5 1).lastDay)
        [⟨daysFromCivil 2024 4 10, 3, 11, 1013, 55⟩])))) := by
  have h1 := statisticsRoundedToOneDecimal.1 [⟨6, 3, 11, 1013, 55⟩] 6 3 1
    (fun _ => none) (by decide)
  have h2 := statisticsRoundedToOneDecimal.2.1 [⟨6, 3, 11, 1013, 55⟩] 7 1
    (fun _ => none) (by decide)
  have h3 := statisticsRoundedToOneDecimal.2.2.1 [⟨6, 3, 11, 1013, 55⟩] 17 1
    (fun _ => none) (by decide)
  have h4 := statisticsRoundedToOneDecimal.2.2.2.1
    [⟨daysFromCivil 2024 4 10, 3, 11, 1013, 55⟩] 2024 5 1 1 (fun _ => none) (by decide)
  obtain ⟨r1, hr1, ha1, -⟩ := h1
  obtain ⟨r2, hr2, -, -, -, hp2, -⟩ := h2
  obtain ⟨r3, hr3, -, -, -, -, -, -, hh3, -⟩ := h3
  obtain ⟨r4, hr4, ht4, -⟩ := h4
  exact ⟨⟨r1, hr1, ha1⟩, ⟨r2, hr2, hp2⟩, ⟨r3, hr3, hh3⟩, ⟨r4, hr4, ht4⟩⟩

end WeatherProcessor
